import Mathlib

/-!
Verification of the FlamingLotusGirls/haven receiver and poofer-control code.

The embedding covers:
* `src/led_node/src/artnet.rs` — the Art-Net receive loop `receive_artnet`:
  port-address computation, universe-to-channel routing, the per-channel
  pixel buffers, strip-write triggering, and poll-reply construction.
* `src/led_node/src/main.rs` — the control flow of `main` (the color-cycling
  loop and the code below it).
* `src/server_rust/src/model.rs` — `Poofer::poof`.
* `src/archive/server_rust/src/poofer_bus_port.rs` — `PooferBusPort::output`.

Machine integers are modelled as `Nat`; where Rust `usize` wrapping matters
(release-profile two's-complement wrap of `PIXEL_COUNT - start`) the wrap is
made explicit with `% 2 ^ 32` (the rp2040 target is 32-bit).
-/

namespace Haven

/-- `PIXEL_COUNT` from `src/led_node/src/main.rs` line 28: `const PIXEL_COUNT: usize = 170;`. -/
def PIXEL_COUNT : Nat := 170

/-- `pixels_per_universe` from `artnet.rs` line 91: `let pixels_per_universe: usize = 512 / 3;`
(integer division). -/
def pixels_per_universe : Nat := 512 / 3

/-- The modulus of the 32-bit `usize` on the rp2040 target. -/
def USIZE_MOD : Nat := 2 ^ 32

/-- Release-profile wrapping subtraction on 32-bit `usize`, for arguments below
`USIZE_MOD` (all uses here have arguments at most 1530). -/
def usizeSub (a b : Nat) : Nat := (a + USIZE_MOD - b) % USIZE_MOD

/-- `tiny_artnet::PORT`, the Art-Net UDP port the node binds and reports in poll replies. -/
def ARTNET_PORT : Nat := 6454

/-- The `tiny_artnet` DMX port-address triple (`net`, `sub_net`, `universe` — the
last renamed `uni` because `universe` is a Lean keyword). Each field is a `u8`
on the wire; Art-Net uses 7 bits of net and 4 bits each of sub-net and universe. -/
structure PortAddress where
  net : Nat
  sub_net : Nat
  uni : Nat
deriving DecidableEq, Repr

/-- The manual port-address computation from `artnet.rs` lines 98-100:
`((net as usize) << 8) + ((sub_net as usize) << 4) + (universe as usize)`. -/
def portAddress (pa : PortAddress) : Nat :=
  (pa.net <<< 8) + (pa.sub_net <<< 4) + pa.uni

/-- A decoded DMX (pixel-data) message: port address, sequence byte, raw data bytes. -/
structure Dmx where
  port_address : PortAddress
  sequence : Nat
  data : List Nat
deriving DecidableEq, Repr

/-- The decoded Art-Net message kinds matched in `receive_artnet` (`tiny_artnet::Art`). -/
inductive Art
  | dmx (d : Dmx)
  | poll
  | command
  | sync
deriving DecidableEq, Repr

/-- A UDP endpoint (source of a received datagram / destination of a reply). -/
structure Endpoint where
  addr : List Nat
  port : Nat
deriving DecidableEq, Repr

/-- The fields of `tiny_artnet::PollReply` that `receive_artnet` fills in
(lines 216-227): node IP, listening port, MAC address. -/
structure PollReply where
  ip_address : List Nat
  port : Nat
  mac_address : List Nat
deriving DecidableEq, Repr

/-- Observable actions of one iteration of the receive loop: a DMA strip write
(`stripN.write_uints(&pixels_N_uints)`), a poll reply handed to `send_to`, and
serial log prints. -/
inductive Event
  | stripWrite (channel : Nat) (pixels : List Nat)
  | pollReply (dest : Endpoint) (reply : PollReply)
  | log (msg : String)
deriving DecidableEq, Repr

/-- The mutable state of the receive loop: the four per-channel pixel buffers
`pixels_0_uints` … `pixels_3_uints` (`u32` words as `Nat`) and the `last_sequence`
debug byte. -/
structure NodeState where
  pixels_0 : List Nat
  pixels_1 : List Nat
  pixels_2 : List Nat
  pixels_3 : List Nat
  last_sequence : Nat
deriving DecidableEq, Repr

/-- Node identity read at bring-up: `address_uints` (IPv4 octets) and
`hardware_address_uints` (MAC bytes). -/
structure NodeConfig where
  address_uints : List Nat
  hardware_address_uints : List Nat
deriving DecidableEq, Repr

/-- `dmx.data.chunks_exact(3)`: the complete 3-byte chunks of the payload, any
remainder of fewer than 3 bytes discarded. -/
def chunksExact3 : List Nat → List (Nat × Nat × Nat)
  | b0 :: b1 :: b2 :: rest => (b0, b1, b2) :: chunksExact3 rest
  | _ => []

/-- The pixel packing of the `for_each` bodies (`artnet.rs` lines 132-134):
`(u32::from(p0) << 24) | (u32::from(p1) << 16) | (u32::from(p2) << 8)`. -/
def packPixel : Nat × Nat × Nat → Nat
  | (b0, b1, b2) => (b0 <<< 24) ||| (b1 <<< 16) ||| (b2 <<< 8)

/-- Semantics of `values.zip(buffer)` with in-place overwrite: the buffer keeps
its length, and its first `min (length buffer) (length values)` entries are
replaced by the values. First argument is the buffer, second the new values. -/
def writeZip : List Nat → List Nat → List Nat
  | b, [] => b
  | [], _ :: _ => []
  | _ :: b, v :: vs => v :: writeZip b vs

/-- Semantics of `data_iter.zip(buffer.iter_mut().skip(start)).for_each(overwrite)`:
entries before `start` are untouched, entries from `start` on are overwritten by
the values, clipped to the buffer's end. -/
def writeAt (b : List Nat) (start : Nat) (v : List Nat) : List Nat :=
  b.take start ++ writeZip (b.drop start) v

/-- The `take` bound on `data_iter` (`artnet.rs` line 122):
`(PIXEL_COUNT - start_of_universe_in_pixel_array).max(0)` — a wrapping `usize`
subtraction followed by a no-op `max` with 0. -/
def dmxTakeCount (start : Nat) : Nat := max (usizeSub PIXEL_COUNT start) 0

/-- The pixel words a DMX message writes: complete 3-byte chunks of `data`,
limited by `dmxTakeCount`, each packed by `packPixel`. -/
def dmxVals (data : List Nat) (start : Nat) : List Nat :=
  ((chunksExact3 data).take (dmxTakeCount start)).map packPixel

/-- The `port_address == 31` debug block (`artnet.rs` lines 104-114): record the
message's sequence byte in `last_sequence`. Buffers are untouched. -/
def debugUpdate (st : NodeState) (p seqv : Nat) : NodeState :=
  if p = 31 then { st with last_sequence := seqv } else st

/-- The `Ok(Art::Dmx(dmx))` arm of `receive_artnet` (lines 93-213): the manual
port-address computation, the `port_address == 31` sequence-skip debug block,
`start_of_universe_in_pixel_array = (port_address % 10) * pixels_per_universe`,
then the four-way `if port_address < 10 / < 20 / < 30 / < 40` chain, each branch
overwriting its channel's buffer via the zip pipeline and issuing a strip write
exactly when `start_of_universe_in_pixel_array == 0`. Port addresses ≥ 40 fall
through with no effect. -/
def handleDmx (st : NodeState) (d : Dmx) : NodeState × List Event :=
  let p := portAddress d.port_address
  let debugEvents : List Event :=
    if p = 31 ∧ d.sequence ≠ (st.last_sequence + 1) % 256 then [Event.log "seq skipped"] else []
  let st1 := debugUpdate st p d.sequence
  let start := (p % 10) * pixels_per_universe
  let vals := dmxVals d.data start
  if p < 10 then
    let buf := writeAt st1.pixels_0 start vals
    ({ st1 with pixels_0 := buf },
      debugEvents ++ if start = 0 then [Event.stripWrite 0 buf] else [])
  else if p < 20 then
    let buf := writeAt st1.pixels_1 start vals
    ({ st1 with pixels_1 := buf },
      debugEvents ++ if start = 0 then [Event.stripWrite 1 buf] else [])
  else if p < 30 then
    let buf := writeAt st1.pixels_2 start vals
    ({ st1 with pixels_2 := buf },
      debugEvents ++ if start = 0 then [Event.stripWrite 2 buf] else [])
  else if p < 40 then
    let buf := writeAt st1.pixels_3 start vals
    ({ st1 with pixels_3 := buf },
      debugEvents ++ if start = 0 then [Event.stripWrite 3 buf] else [])
  else (st1, debugEvents)

/-- The poll reply built in the `Ok(Art::Poll(_))` arm (lines 216-227): node IP,
`tiny_artnet::PORT`, and the MAC copied into a zeroed 6-byte array via
`a.iter_mut().zip(hardware_address_uints.iter())`. -/
def mkPollReply (cfg : NodeConfig) : PollReply :=
  { ip_address := cfg.address_uints
    port := ARTNET_PORT
    mac_address := writeZip (List.replicate 6 0) cfg.hardware_address_uints }

/-- One iteration of the `match tiny_artnet::from_slice(..)` dispatch in
`receive_artnet` (lines 92-263). `msg` is the decoder result (`Err` for a
malformed datagram), `src` the datagram's source endpoint, and `sendOk` the
outcome of `socket.send_to` for a poll reply — the `Ok`/`Err` match on the send
(lines 242-252) only logs, in both cases. -/
def handleArt (cfg : NodeConfig) (st : NodeState) (msg : Except Unit Art)
    (src : Endpoint) (sendOk : Bool) : NodeState × List Event :=
  match msg with
  | .ok (.dmx d) => handleDmx st d
  | .ok .poll =>
      (st, [Event.log "received artnet: poll",
            Event.pollReply src (mkPollReply cfg),
            if sendOk then Event.log "sent poll reply"
            else Event.log "error sending poll reply"])
  | .ok .command => (st, [Event.log "received artnet: command"])
  | .ok .sync => (st, [Event.log "received artnet: sync"])
  | .error _ => (st, [Event.log "received artnet: error"])

/-- The initial buffers of `receive_artnet` (lines 60-69): four all-zero
`[0u32; PIXEL_COUNT]` arrays and `last_sequence = 0`. -/
def initState : NodeState :=
  { pixels_0 := List.replicate PIXEL_COUNT 0
    pixels_1 := List.replicate PIXEL_COUNT 0
    pixels_2 := List.replicate PIXEL_COUNT 0
    pixels_3 := List.replicate PIXEL_COUNT 0
    last_sequence := 0 }

/-- The receive loop as a fold: start from `initState` and process each received
datagram (decoder result, source endpoint, send outcome) in arrival order. -/
def runArtnet (cfg : NodeConfig) (inputs : List (Except Unit Art × Endpoint × Bool)) :
    NodeState :=
  inputs.foldl (fun st i => (handleArt cfg st i.1 i.2.1 i.2.2).1) initState

/-- Channel `c`'s pixel buffer (`pixels_c_uints`). -/
def bufferOf (st : NodeState) (c : Nat) : List Nat :=
  match c with
  | 0 => st.pixels_0
  | 1 => st.pixels_1
  | 2 => st.pixels_2
  | _ => st.pixels_3

/-- Recognizer for strip-write events. -/
def isStripWrite : Event → Bool
  | .stripWrite _ _ => true
  | _ => false

/-- Recognizer for poll-reply send events. -/
def isPollReply : Event → Bool
  | .pollReply _ _ => true
  | _ => false

/-- All `u32` words of a buffer have their low 8 bits clear. -/
def lowBytesZero (l : List Nat) : Bool := l.all fun x => x % 256 == 0

/-- Program points of `main` in `src/led_node/src/main.rs`: the four strip
writes of the color-cycling loop (lines 149-174), then the statements below it —
Ethernet bring-up (line 177), network-stack setup (line 207), waiting for the
stack config (line 251), and the call to `artnet::receive_artnet` (line 261). -/
inductive MainPC
  | loopRed
  | loopYellow
  | loopGreen
  | loopBlue
  | ethernetSetup
  | netStackSetup
  | waitForConfig
  | receiveArtnetCall
deriving DecidableEq, Repr

/-- Control flow of `main`: the loop body runs its four strip writes in order
and, containing no `break` or `return`, jumps back to its first statement; the
later phases run in sequence and end in the receive loop. -/
def mainStep : MainPC → MainPC
  | .loopRed => .loopYellow
  | .loopYellow => .loopGreen
  | .loopGreen => .loopBlue
  | .loopBlue => .loopRed
  | .ethernetSetup => .netStackSetup
  | .netStackSetup => .waitForConfig
  | .waitForConfig => .receiveArtnetCall
  | .receiveArtnetCall => .receiveArtnetCall

/-- The program points inside the color-cycling loop. -/
def inColorLoop : MainPC → Bool
  | .loopRed => true
  | .loopYellow => true
  | .loopGreen => true
  | .loopBlue => true
  | _ => false

/-- Execution of `main` from the top of the color-cycling loop. -/
def mainRun (n : Nat) : MainPC := mainStep^[n] MainPC.loopRed

/-- `RelayAddress` from `src/server_rust/src/model.rs` (board address set by dip
switches, one-indexed relay number). -/
structure RelayAddress where
  board_address : Nat
  relay_number : Nat
deriving DecidableEq, Repr

/-- `Poofer` from `model.rs` (the geometry fields `x`, `y` are `f32` and unused
by `poof` and `output`; they are omitted). -/
structure Poofer where
  relay_address : RelayAddress
  «on» : Bool
  needs_to_send_command : Bool
deriving DecidableEq, Repr

/-- `Poofer::poof` (`model.rs` lines 23-35): a state transition sets `on` and
marks `needs_to_send_command`; a no-transition call falls to the `_ => {}` arm. -/
def Poofer.poof (p : Poofer) (new_value_of_on : Bool) : Poofer :=
  match p.«on», new_value_of_on with
  | true, false => { p with «on» := false, needs_to_send_command := true }
  | false, true => { p with «on» := true, needs_to_send_command := true }
  | _, _ => p

/-- Rust's `{n:02}` format for an unsigned integer: decimal digits, left-padded
with `0` to width 2. -/
def rustFormatPad2 (n : Nat) : String :=
  String.mk (List.replicate (2 - (toString n).length) '0') ++ toString n

/-- Rust's `as u8` on a `bool`. -/
def boolToU8 (b : Bool) : Nat := if b then 1 else 0

/-- The serial command of `PooferBusPort::output` (`poofer_bus_port.rs` lines
103 and 115): `format!("!{board_address:02}{relay_number}{on_digit}.")`. -/
def pooferCommand (board relay on_digit : Nat) : String :=
  "!" ++ rustFormatPad2 board ++ toString relay ++ toString on_digit ++ "."

/-- The per-poofer body of `PooferBusPort::output`: when the poofer is marked,
send one command over the channel and clear the mark; otherwise do nothing.
Returns the commands sent and the updated poofer. -/
def pooferBusStep (p : Poofer) : List String × Poofer :=
  if p.needs_to_send_command then
    ([pooferCommand p.relay_address.board_address p.relay_address.relay_number
        (boolToU8 p.«on»)],
      { p with needs_to_send_command := false })
  else ([], p)

/-- `Elder` from `model.rs`, restricted to the fields `PooferBusPort::output`
reads (its `artnet_target_addr` and `crane_light` are untouched by `output`). -/
structure Elder where
  poofer_wide : Poofer
  poofer_narrow : Poofer
deriving DecidableEq, Repr

/-- `PooferBusPort::output` (`poofer_bus_port.rs` lines 94-121): for each elder
in order, handle the wide poofer then the narrow poofer. Returns the commands
sent over the serial channel, in order, and the updated elders. -/
def PooferBusPort.output (elders : List Elder) : List String × List Elder :=
  match elders with
  | [] => ([], [])
  | e :: rest =>
      let (cw, w) := pooferBusStep e.poofer_wide
      let (cn, n) := pooferBusStep e.poofer_narrow
      let (crest, erest) := PooferBusPort.output rest
      (cw ++ cn ++ crest, { e with poofer_wide := w, poofer_narrow := n } :: erest)

/-! ### Helper lemmas -/

lemma debugUpdate_pixels_0 (st : NodeState) (p v : Nat) :
    (debugUpdate st p v).pixels_0 = st.pixels_0 := by
  unfold debugUpdate; split <;> rfl

lemma debugUpdate_pixels_1 (st : NodeState) (p v : Nat) :
    (debugUpdate st p v).pixels_1 = st.pixels_1 := by
  unfold debugUpdate; split <;> rfl

lemma debugUpdate_pixels_2 (st : NodeState) (p v : Nat) :
    (debugUpdate st p v).pixels_2 = st.pixels_2 := by
  unfold debugUpdate; split <;> rfl

lemma debugUpdate_pixels_3 (st : NodeState) (p v : Nat) :
    (debugUpdate st p v).pixels_3 = st.pixels_3 := by
  unfold debugUpdate; split <;> rfl

lemma writeZip_nil_left (v : List Nat) : writeZip [] v = [] := by
  cases v <;> rfl

lemma writeZip_length (b v : List Nat) : (writeZip b v).length = b.length := by
  induction b generalizing v with
  | nil => rw [writeZip_nil_left]
  | cons x b ih =>
      cases v with
      | nil => rfl
      | cons y vs => simpa [writeZip] using ih vs

lemma writeZip_idem (b v : List Nat) : writeZip (writeZip b v) v = writeZip b v := by
  induction b generalizing v with
  | nil => rw [writeZip_nil_left, writeZip_nil_left]
  | cons x b ih =>
      cases v with
      | nil => rfl
      | cons y vs => simp [writeZip, ih vs]

lemma mem_writeZip (b v : List Nat) (x : Nat) (hx : x ∈ writeZip b v) : x ∈ b ∨ x ∈ v := by
  induction b generalizing v with
  | nil => rw [writeZip_nil_left] at hx; simp at hx
  | cons a b ih =>
      cases v with
      | nil => exact Or.inl hx
      | cons y vs =>
          simp only [writeZip, List.mem_cons] at hx
          rcases hx with h | h
          · exact Or.inr (by simp [h])
          · rcases ih vs h with h' | h'
            · exact Or.inl (by simp [h'])
            · exact Or.inr (by simp [h'])

lemma writeZip_replicate (l : List Nat) (n : Nat) (h : l.length = n) :
    writeZip (List.replicate n 0) l = l := by
  induction l generalizing n with
  | nil => subst h; rfl
  | cons x xs ih =>
      subst h
      simp only [List.length_cons, List.replicate_succ, writeZip]
      rw [ih xs.length rfl]

lemma writeAt_length (b : List Nat) (s : Nat) (v : List Nat) :
    (writeAt b s v).length = b.length := by
  simp only [writeAt, List.length_append, List.length_take, writeZip_length,
    List.length_drop]
  omega

lemma writeAt_of_length_le (b : List Nat) (s : Nat) (v : List Nat) (h : b.length ≤ s) :
    writeAt b s v = b := by
  simp [writeAt, List.take_of_length_le h, List.drop_of_length_le h, writeZip_nil_left]

lemma writeAt_idem (b : List Nat) (s : Nat) (v : List Nat) :
    writeAt (writeAt b s v) s v = writeAt b s v := by
  rcases le_or_lt s b.length with h | h
  · have ht : (b.take s).length = s := by
      simp [List.length_take]
      omega
    conv_lhs => rw [writeAt, writeAt, List.take_left' ht, List.drop_left' ht]
    rw [writeZip_idem, ← writeAt]
  · rw [writeAt_of_length_le b s v (le_of_lt h),
      writeAt_of_length_le b s v (le_of_lt h)]

lemma mem_writeAt (b : List Nat) (s : Nat) (v : List Nat) (x : Nat)
    (hx : x ∈ writeAt b s v) : x ∈ b ∨ x ∈ v := by
  unfold writeAt at hx
  rcases List.mem_append.mp hx with h | h
  · exact Or.inl (List.take_subset s b h)
  · rcases mem_writeZip _ _ _ h with h' | h'
    · exact Or.inl (List.drop_subset s b h')
    · exact Or.inr h'

lemma handleDmx_pixels_0 (st : NodeState) (d : Dmx) :
    (handleDmx st d).1.pixels_0 =
      if portAddress d.port_address < 10 then
        writeAt st.pixels_0 ((portAddress d.port_address % 10) * pixels_per_universe)
          (dmxVals d.data ((portAddress d.port_address % 10) * pixels_per_universe))
      else st.pixels_0 := by
  simp only [handleDmx]
  split_ifs <;>
    simp [debugUpdate_pixels_0]

lemma handleDmx_pixels_1 (st : NodeState) (d : Dmx) :
    (handleDmx st d).1.pixels_1 =
      if ¬ portAddress d.port_address < 10 ∧ portAddress d.port_address < 20 then
        writeAt st.pixels_1 ((portAddress d.port_address % 10) * pixels_per_universe)
          (dmxVals d.data ((portAddress d.port_address % 10) * pixels_per_universe))
      else st.pixels_1 := by
  simp only [handleDmx]
  split_ifs <;>
    simp_all [debugUpdate_pixels_1]

lemma handleDmx_pixels_2 (st : NodeState) (d : Dmx) :
    (handleDmx st d).1.pixels_2 =
      if ¬ portAddress d.port_address < 20 ∧ portAddress d.port_address < 30 then
        writeAt st.pixels_2 ((portAddress d.port_address % 10) * pixels_per_universe)
          (dmxVals d.data ((portAddress d.port_address % 10) * pixels_per_universe))
      else st.pixels_2 := by
  simp only [handleDmx]
  split_ifs <;>
    simp_all [debugUpdate_pixels_2] <;> omega

lemma handleDmx_pixels_3 (st : NodeState) (d : Dmx) :
    (handleDmx st d).1.pixels_3 =
      if ¬ portAddress d.port_address < 30 ∧ portAddress d.port_address < 40 then
        writeAt st.pixels_3 ((portAddress d.port_address % 10) * pixels_per_universe)
          (dmxVals d.data ((portAddress d.port_address % 10) * pixels_per_universe))
      else st.pixels_3 := by
  simp only [handleDmx]
  split_ifs <;>
    simp_all [debugUpdate_pixels_3] <;> omega

lemma handleDmx_stripEvents (st : NodeState) (d : Dmx) :
    (handleDmx st d).2.filter isStripWrite =
      if portAddress d.port_address < 40 ∧ portAddress d.port_address % 10 = 0 then
        [Event.stripWrite (portAddress d.port_address / 10)
          (writeAt (bufferOf st (portAddress d.port_address / 10)) 0 (dmxVals d.data 0))]
      else [] := by
  simp only [handleDmx]
  have hppu : pixels_per_universe = 170 := rfl
  split_ifs <;>
    simp_all [isStripWrite, bufferOf, List.filter, debugUpdate_pixels_0,
      debugUpdate_pixels_1, debugUpdate_pixels_2, debugUpdate_pixels_3]
  all_goals try omega
  · exact ⟨by omega, by rw [show portAddress d.port_address / 10 = 0 from by omega]⟩
  · exact ⟨by omega, by rw [show portAddress d.port_address / 10 = 1 from by omega]⟩
  · exact ⟨by omega, by rw [show portAddress d.port_address / 10 = 2 from by omega]⟩
  · exact ⟨by omega, by rw [show portAddress d.port_address / 10 = 3 from by omega]⟩

lemma handleDmx_bufferOf_target (st : NodeState) (d : Dmx)
    (h40 : portAddress d.port_address < 40) :
    bufferOf (handleDmx st d).1 (portAddress d.port_address / 10) =
      writeAt (bufferOf st (portAddress d.port_address / 10))
        ((portAddress d.port_address % 10) * pixels_per_universe)
        (dmxVals d.data ((portAddress d.port_address % 10) * pixels_per_universe)) := by
  have h : portAddress d.port_address < 10 ∨
      (10 ≤ portAddress d.port_address ∧ portAddress d.port_address < 20) ∨
      (20 ≤ portAddress d.port_address ∧ portAddress d.port_address < 30) ∨
      (30 ≤ portAddress d.port_address ∧ portAddress d.port_address < 40) := by omega
  rcases h with h | h | h | h
  · rw [show portAddress d.port_address / 10 = 0 from by omega]
    simpa [bufferOf, h] using handleDmx_pixels_0 st d
  · rw [show portAddress d.port_address / 10 = 1 from by omega]
    simpa [bufferOf, show ¬ portAddress d.port_address < 10 from by omega,
      show portAddress d.port_address < 20 from by omega] using handleDmx_pixels_1 st d
  · rw [show portAddress d.port_address / 10 = 2 from by omega]
    simpa [bufferOf, show ¬ portAddress d.port_address < 20 from by omega,
      show portAddress d.port_address < 30 from by omega] using handleDmx_pixels_2 st d
  · rw [show portAddress d.port_address / 10 = 3 from by omega]
    simpa [bufferOf, show ¬ portAddress d.port_address < 30 from by omega,
      show portAddress d.port_address < 40 from by omega] using handleDmx_pixels_3 st d

lemma handleDmx_bufferOf_other (st : NodeState) (d : Dmx) (c : Nat) (hc : c < 4)
    (hne : c ≠ portAddress d.port_address / 10) :
    bufferOf (handleDmx st d).1 c = bufferOf st c := by
  interval_cases c
  · have h : ¬ portAddress d.port_address < 10 := by omega
    simpa [bufferOf, h] using handleDmx_pixels_0 st d
  · have h : ¬ (10 ≤ portAddress d.port_address ∧ portAddress d.port_address < 20) := by omega
    simpa [bufferOf, h] using handleDmx_pixels_1 st d
  · have h : ¬ (20 ≤ portAddress d.port_address ∧ portAddress d.port_address < 30) := by omega
    simpa [bufferOf, h] using handleDmx_pixels_2 st d
  · have h : ¬ (30 ≤ portAddress d.port_address ∧ portAddress d.port_address < 40) := by omega
    simpa [bufferOf, h] using handleDmx_pixels_3 st d

lemma packPixel_mod_256 (t : Nat × Nat × Nat) : packPixel t % 256 = 0 := by
  obtain ⟨b0, b1, b2⟩ := t
  have h : (256 : Nat) = 2 ^ 8 := by norm_num
  apply Nat.eq_of_testBit_eq
  intro i
  rw [Nat.zero_testBit, h, Nat.testBit_mod_two_pow]
  simp only [packPixel, Nat.testBit_lor, Nat.testBit_shiftLeft]
  by_cases hi : i < 8
  · simp [show ¬ (24 ≤ i) from by omega, show ¬ (16 ≤ i) from by omega,
      show ¬ (8 ≤ i) from by omega]
  · simp [hi]

lemma lowBytesZero_dmxVals (data : List Nat) (s : Nat) :
    lowBytesZero (dmxVals data s) = true := by
  simp only [lowBytesZero, dmxVals, List.all_eq_true]
  intro x hx
  obtain ⟨t, _, rfl⟩ := List.mem_map.mp hx
  simp [packPixel_mod_256 t]

lemma lowBytesZero_writeAt (b v : List Nat) (s : Nat)
    (hb : lowBytesZero b = true) (hv : lowBytesZero v = true) :
    lowBytesZero (writeAt b s v) = true := by
  simp only [lowBytesZero, List.all_eq_true] at *
  intro x hx
  rcases mem_writeAt b s v x hx with h | h
  · exact hb x h
  · exact hv x h

lemma lowBytesZero_handleDmx (st : NodeState) (d : Dmx)
    (h0 : lowBytesZero st.pixels_0 = true) (h1 : lowBytesZero st.pixels_1 = true)
    (h2 : lowBytesZero st.pixels_2 = true) (h3 : lowBytesZero st.pixels_3 = true) :
    lowBytesZero (handleDmx st d).1.pixels_0 = true ∧
    lowBytesZero (handleDmx st d).1.pixels_1 = true ∧
    lowBytesZero (handleDmx st d).1.pixels_2 = true ∧
    lowBytesZero (handleDmx st d).1.pixels_3 = true := by
  refine ⟨?_, ?_, ?_, ?_⟩
  · rw [handleDmx_pixels_0]
    split
    · exact lowBytesZero_writeAt _ _ _ h0 (lowBytesZero_dmxVals _ _)
    · exact h0
  · rw [handleDmx_pixels_1]
    split
    · exact lowBytesZero_writeAt _ _ _ h1 (lowBytesZero_dmxVals _ _)
    · exact h1
  · rw [handleDmx_pixels_2]
    split
    · exact lowBytesZero_writeAt _ _ _ h2 (lowBytesZero_dmxVals _ _)
    · exact h2
  · rw [handleDmx_pixels_3]
    split
    · exact lowBytesZero_writeAt _ _ _ h3 (lowBytesZero_dmxVals _ _)
    · exact h3

lemma handleArt_buffers_eq (cfg : NodeConfig) (st : NodeState) (msg : Except Unit Art)
    (src : Endpoint) (ok : Bool) (hmsg : ∀ d, msg ≠ .ok (.dmx d)) :
    (handleArt cfg st msg src ok).1 = st := by
  match msg with
  | .ok (.dmx d) => exact absurd rfl (hmsg d)
  | .ok .poll => rfl
  | .ok .command => rfl
  | .ok .sync => rfl
  | .error _ => rfl

lemma lowBytesZero_handleArt (cfg : NodeConfig) (st : NodeState) (msg : Except Unit Art)
    (src : Endpoint) (ok : Bool)
    (h0 : lowBytesZero st.pixels_0 = true) (h1 : lowBytesZero st.pixels_1 = true)
    (h2 : lowBytesZero st.pixels_2 = true) (h3 : lowBytesZero st.pixels_3 = true) :
    lowBytesZero (handleArt cfg st msg src ok).1.pixels_0 = true ∧
    lowBytesZero (handleArt cfg st msg src ok).1.pixels_1 = true ∧
    lowBytesZero (handleArt cfg st msg src ok).1.pixels_2 = true ∧
    lowBytesZero (handleArt cfg st msg src ok).1.pixels_3 = true := by
  match msg with
  | .ok (.dmx d) => exact lowBytesZero_handleDmx st d h0 h1 h2 h3
  | .ok .poll => exact ⟨h0, h1, h2, h3⟩
  | .ok .command => exact ⟨h0, h1, h2, h3⟩
  | .ok .sync => exact ⟨h0, h1, h2, h3⟩
  | .error _ => exact ⟨h0, h1, h2, h3⟩

/-! ### Claim theorems -/

/-- **C7**: for every decoded DMX message the receiver computes the port address
manually as `(net << 8) + (sub_net << 4) + universe`; with in-range sub-net and
universe nibbles this decomposition matches the protocol's bit layout — net in
the high bits (bits 8 and up), sub-net in the middle nibble, universe in the
low nibble. -/
theorem port_address_bit_layout (pa : PortAddress)
    (hs : pa.sub_net < 16) (hu : pa.uni < 16) :
    portAddress pa = pa.net * 2 ^ 8 + pa.sub_net * 2 ^ 4 + pa.uni ∧
    portAddress pa / 2 ^ 8 = pa.net ∧
    portAddress pa / 2 ^ 4 % 2 ^ 4 = pa.sub_net ∧
    portAddress pa % 2 ^ 4 = pa.uni := by
  simp only [portAddress, Nat.shiftLeft_eq]
  norm_num
  omega

/-- Witness for C7 at net 2, sub-net 3, universe 1. -/
theorem port_address_bit_layout_witness :
    (3 : Nat) < 16 ∧ (1 : Nat) < 16 ∧
    (portAddress ⟨2, 3, 1⟩ = 2 * 2 ^ 8 + 3 * 2 ^ 4 + 1 ∧
     portAddress ⟨2, 3, 1⟩ / 2 ^ 8 = 2 ∧
     portAddress ⟨2, 3, 1⟩ / 2 ^ 4 % 2 ^ 4 = 3 ∧
     portAddress ⟨2, 3, 1⟩ % 2 ^ 4 = 1) :=
  ⟨by decide, by decide, port_address_bit_layout ⟨2, 3, 1⟩ (by decide) (by decide)⟩

/-- **C2**: a pixel-data message with port address `p < 40` is routed to the
pixel buffer of channel `p / 10`, written starting at pixel offset
`(p % 10) * pixels_per_universe` with `pixels_per_universe = ⌊512/3⌋ = 170`; no
other channel's buffer is touched. -/
theorem dmx_channel_mapping (st : NodeState) (d : Dmx)
    (h40 : portAddress d.port_address < 40) :
    pixels_per_universe = 512 / 3 ∧ pixels_per_universe = 170 ∧
    ∀ c, c < 4 →
      bufferOf (handleDmx st d).1 c =
        if c = portAddress d.port_address / 10 then
          writeAt (bufferOf st c)
            ((portAddress d.port_address % 10) * pixels_per_universe)
            (dmxVals d.data ((portAddress d.port_address % 10) * pixels_per_universe))
        else bufferOf st c := by
  refine ⟨rfl, rfl, fun c hc => ?_⟩
  by_cases hx : c = portAddress d.port_address / 10
  · subst hx
    rw [if_pos rfl]
    exact handleDmx_bufferOf_target st d h40
  · rw [if_neg hx]
    exact handleDmx_bufferOf_other st d c hc hx

/-- Witness for C2: the spec's end-to-end scenario — port address 5, payload
`[10, 20, 30]` — decodes to channel 0 and offset `(5 % 10) * 170`. -/
theorem dmx_channel_mapping_witness :
    portAddress ⟨0, 0, 5⟩ < 40 ∧ (0 : Nat) < 4 ∧
    bufferOf (handleDmx initState ⟨⟨0, 0, 5⟩, 0, [10, 20, 30]⟩).1 0 =
      if 0 = portAddress ⟨0, 0, 5⟩ / 10 then
        writeAt (bufferOf initState 0)
          ((portAddress ⟨0, 0, 5⟩ % 10) * pixels_per_universe)
          (dmxVals [10, 20, 30] ((portAddress ⟨0, 0, 5⟩ % 10) * pixels_per_universe))
      else bufferOf initState 0 :=
  ⟨by decide, by decide,
    (dmx_channel_mapping initState ⟨⟨0, 0, 5⟩, 0, [10, 20, 30]⟩ (by decide)).2.2 0
      (by decide)⟩

/-- **C1**: processing a pixel-data message is a total function that keeps every
pixel buffer at its full length (170 in operation): writes past the capacity are
clipped and no index outside `[0, 170)` is touched. In particular, for every
port address with `p % 10 ≥ 1` the computed offset `(p % 10) * 170` reaches or
exceeds the buffer length, and the buffers are left completely unchanged. -/
theorem dmx_overflow_clipped (st : NodeState) (d : Dmx)
    (h0 : st.pixels_0.length = PIXEL_COUNT) (h1 : st.pixels_1.length = PIXEL_COUNT)
    (h2 : st.pixels_2.length = PIXEL_COUNT) (h3 : st.pixels_3.length = PIXEL_COUNT) :
    ((handleDmx st d).1.pixels_0.length = PIXEL_COUNT ∧
     (handleDmx st d).1.pixels_1.length = PIXEL_COUNT ∧
     (handleDmx st d).1.pixels_2.length = PIXEL_COUNT ∧
     (handleDmx st d).1.pixels_3.length = PIXEL_COUNT) ∧
    (1 ≤ portAddress d.port_address % 10 →
      (handleDmx st d).1.pixels_0 = st.pixels_0 ∧
      (handleDmx st d).1.pixels_1 = st.pixels_1 ∧
      (handleDmx st d).1.pixels_2 = st.pixels_2 ∧
      (handleDmx st d).1.pixels_3 = st.pixels_3) := by
  constructor
  · refine ⟨?_, ?_, ?_, ?_⟩
    · rw [handleDmx_pixels_0]; split
      · rw [writeAt_length, h0]
      · exact h0
    · rw [handleDmx_pixels_1]; split
      · rw [writeAt_length, h1]
      · exact h1
    · rw [handleDmx_pixels_2]; split
      · rw [writeAt_length, h2]
      · exact h2
    · rw [handleDmx_pixels_3]; split
      · rw [writeAt_length, h3]
      · exact h3
  · intro hmod
    have hge : PIXEL_COUNT ≤ (portAddress d.port_address % 10) * pixels_per_universe := by
      rw [show pixels_per_universe = 170 from rfl, show PIXEL_COUNT = 170 from rfl]
      omega
    refine ⟨?_, ?_, ?_, ?_⟩
    · rw [handleDmx_pixels_0]; split
      · exact writeAt_of_length_le _ _ _ (by rw [h0]; exact hge)
      · rfl
    · rw [handleDmx_pixels_1]; split
      · exact writeAt_of_length_le _ _ _ (by rw [h1]; exact hge)
      · rfl
    · rw [handleDmx_pixels_2]; split
      · exact writeAt_of_length_le _ _ _ (by rw [h2]; exact hge)
      · rfl
    · rw [handleDmx_pixels_3]; split
      · exact writeAt_of_length_le _ _ _ (by rw [h3]; exact hge)
      · rfl

/-- Witness for C1 at port address 12 (offset `2 * 170 = 340` plus a nonempty
payload exceeds the 170-pixel buffer): buffers keep length 170 and are
unchanged. -/
theorem dmx_overflow_clipped_witness :
    (initState.pixels_0.length = PIXEL_COUNT ∧
     initState.pixels_1.length = PIXEL_COUNT ∧
     initState.pixels_2.length = PIXEL_COUNT ∧
     initState.pixels_3.length = PIXEL_COUNT ∧
     1 ≤ portAddress ⟨0, 0, 12⟩ % 10) ∧
    ((handleDmx initState ⟨⟨0, 0, 12⟩, 0, [10, 20, 30]⟩).1.pixels_0.length = PIXEL_COUNT ∧
     (handleDmx initState ⟨⟨0, 0, 12⟩, 0, [10, 20, 30]⟩).1.pixels_1.length = PIXEL_COUNT ∧
     (handleDmx initState ⟨⟨0, 0, 12⟩, 0, [10, 20, 30]⟩).1.pixels_2.length = PIXEL_COUNT ∧
     (handleDmx initState ⟨⟨0, 0, 12⟩, 0, [10, 20, 30]⟩).1.pixels_3.length = PIXEL_COUNT) ∧
    ((handleDmx initState ⟨⟨0, 0, 12⟩, 0, [10, 20, 30]⟩).1.pixels_0 = initState.pixels_0 ∧
     (handleDmx initState ⟨⟨0, 0, 12⟩, 0, [10, 20, 30]⟩).1.pixels_1 = initState.pixels_1 ∧
     (handleDmx initState ⟨⟨0, 0, 12⟩, 0, [10, 20, 30]⟩).1.pixels_2 = initState.pixels_2 ∧
     (handleDmx initState ⟨⟨0, 0, 12⟩, 0, [10, 20, 30]⟩).1.pixels_3 = initState.pixels_3) := by
  have hlen : (List.replicate PIXEL_COUNT (0 : Nat)).length = PIXEL_COUNT :=
    List.length_replicate PIXEL_COUNT 0
  have h := dmx_overflow_clipped initState ⟨⟨0, 0, 12⟩, 0, [10, 20, 30]⟩
    hlen hlen hlen hlen
  exact ⟨⟨hlen, hlen, hlen, hlen, by decide⟩, h.1, h.2 (by decide)⟩

/-- **C4**: a pixel-data message whose port address is 40 or more (channel index
4 or more, e.g. channel 999) is silently dropped: the state is unchanged and no
event — no strip write, no reply, not even a log line — is produced. -/
theorem dmx_out_of_range_dropped (st : NodeState) (d : Dmx)
    (h : 40 ≤ portAddress d.port_address) :
    handleDmx st d = (st, []) := by
  have h31 : portAddress d.port_address ≠ 31 := by omega
  simp only [handleDmx, debugUpdate]
  simp [show ¬ portAddress d.port_address < 10 from by omega,
    show ¬ portAddress d.port_address < 20 from by omega,
    show ¬ portAddress d.port_address < 30 from by omega,
    show ¬ portAddress d.port_address < 40 from by omega, h31]

/-- Witness for C4: port address 9990 (channel index 999) is dropped without any
effect. -/
theorem dmx_out_of_range_dropped_witness :
    40 ≤ portAddress ⟨39, 0, 6⟩ ∧ portAddress ⟨39, 0, 6⟩ / 10 = 999 ∧
    handleDmx initState ⟨⟨39, 0, 6⟩, 7, [1, 2, 3]⟩ = (initState, []) :=
  ⟨by decide, by decide,
    dmx_out_of_range_dropped initState ⟨⟨39, 0, 6⟩, 7, [1, 2, 3]⟩ (by decide)⟩

/-- **C9**: processing the same pixel-data message twice in a row leaves all
four pixel buffers in the same state as processing it once, from any starting
state. -/
theorem dmx_idempotent (st : NodeState) (d : Dmx) :
    (handleDmx (handleDmx st d).1 d).1.pixels_0 = (handleDmx st d).1.pixels_0 ∧
    (handleDmx (handleDmx st d).1 d).1.pixels_1 = (handleDmx st d).1.pixels_1 ∧
    (handleDmx (handleDmx st d).1 d).1.pixels_2 = (handleDmx st d).1.pixels_2 ∧
    (handleDmx (handleDmx st d).1 d).1.pixels_3 = (handleDmx st d).1.pixels_3 := by
  refine ⟨?_, ?_, ?_, ?_⟩
  · rw [handleDmx_pixels_0 (handleDmx st d).1 d, handleDmx_pixels_0 st d]
    by_cases hc : portAddress d.port_address < 10
    · simp [hc, writeAt_idem]
    · simp [hc]
  · rw [handleDmx_pixels_1 (handleDmx st d).1 d, handleDmx_pixels_1 st d]
    by_cases ha : portAddress d.port_address < 10
    · simp [ha]
    · by_cases hb : portAddress d.port_address < 20
      · simp [ha, hb, writeAt_idem]
      · simp [ha, hb]
  · rw [handleDmx_pixels_2 (handleDmx st d).1 d, handleDmx_pixels_2 st d]
    by_cases ha : portAddress d.port_address < 20
    · simp [ha]
    · by_cases hb : portAddress d.port_address < 30
      · simp [ha, hb, writeAt_idem]
      · simp [ha, hb]
  · rw [handleDmx_pixels_3 (handleDmx st d).1 d, handleDmx_pixels_3 st d]
    by_cases ha : portAddress d.port_address < 30
    · simp [ha]
    · by_cases hb : portAddress d.port_address < 40
      · simp [ha, hb, writeAt_idem]
      · simp [ha, hb]

/-- **C3**: the color-cycling loop at the start of `main` contains no `break` or
`return`: every program point reachable from its first statement stays inside
the loop, so execution never reaches the Ethernet/network setup below it nor the
call to `receive_artnet` — the node as written never processes an Art-Net
datagram. -/
theorem main_never_reaches_receive (n : Nat) :
    inColorLoop (mainRun n) = true ∧
    mainRun n ≠ MainPC.receiveArtnetCall ∧
    mainRun n ≠ MainPC.ethernetSetup := by
  have step_in : ∀ pc, inColorLoop pc = true → inColorLoop (mainStep pc) = true := by
    intro pc h
    cases pc <;> simp_all [mainStep, inColorLoop]
  have h : ∀ m, inColorLoop (mainRun m) = true := by
    intro m
    induction m with
    | zero => rfl
    | succ k ih =>
        rw [mainRun, Function.iterate_succ_apply']
        exact step_in _ ih
  refine ⟨h n, ?_, ?_⟩
  · intro hc
    have hx := h n
    rw [hc] at hx
    exact absurd hx (by decide)
  · intro hc
    have hx := h n
    rw [hc] at hx
    exact absurd hx (by decide)

/-- **C5**: a strip-write is triggered exactly when a pixel-data message for a
valid channel (`p < 40`) with computed offset 0 (`p % 10 = 0`) is processed; it
is then the only strip write of the iteration, targets channel `p / 10`, and
carries that channel's buffer as just updated by that message. A Sync message is
only logged: the state is unchanged and no strip write results. -/
theorem strip_write_on_offset_zero (cfg : NodeConfig) (st : NodeState)
    (msg : Except Unit Art) (src : Endpoint) (ok : Bool) :
    ((handleArt cfg st msg src ok).2.filter isStripWrite ≠ [] ↔
      ∃ d, msg = Except.ok (Art.dmx d) ∧ portAddress d.port_address < 40 ∧
        portAddress d.port_address % 10 = 0) ∧
    (∀ d, msg = Except.ok (Art.dmx d) → portAddress d.port_address < 40 →
      portAddress d.port_address % 10 = 0 →
      (handleArt cfg st msg src ok).2.filter isStripWrite =
        [Event.stripWrite (portAddress d.port_address / 10)
          (bufferOf (handleArt cfg st msg src ok).1 (portAddress d.port_address / 10))]) ∧
    (msg = Except.ok Art.sync →
      handleArt cfg st msg src ok = (st, [Event.log "received artnet: sync"])) := by
  match msg with
  | .ok (.dmx d0) =>
      refine ⟨?_, ?_, by intro h; simp at h⟩
      · show (handleDmx st d0).2.filter isStripWrite ≠ [] ↔ _
        rw [handleDmx_stripEvents]
        constructor
        · intro hne
          by_cases hcond : portAddress d0.port_address < 40 ∧
              portAddress d0.port_address % 10 = 0
          · exact ⟨d0, rfl, hcond.1, hcond.2⟩
          · rw [if_neg hcond] at hne
            exact absurd rfl hne
        · rintro ⟨d, hd, h40, hmod⟩
          simp only [Except.ok.injEq, Art.dmx.injEq] at hd
          subst hd
          rw [if_pos ⟨h40, hmod⟩]
          simp
      · intro d hd h40 hmod
        simp only [Except.ok.injEq, Art.dmx.injEq] at hd
        subst hd
        show (handleDmx st d0).2.filter isStripWrite =
          [Event.stripWrite _ (bufferOf (handleDmx st d0).1 _)]
        rw [handleDmx_stripEvents, if_pos ⟨h40, hmod⟩,
          handleDmx_bufferOf_target st d0 h40, hmod, zero_mul]
  | .ok .poll =>
      refine ⟨?_, by intro d hd; simp at hd, by intro h; simp at h⟩
      constructor
      · intro hne
        exfalso
        apply hne
        show List.filter isStripWrite _ = []
        cases ok <;> rfl
      · rintro ⟨d, hd, _⟩
        simp at hd
  | .ok .command =>
      refine ⟨?_, by intro d hd; simp at hd, by intro h; simp at h⟩
      constructor
      · intro hne
        exact absurd rfl hne
      · rintro ⟨d, hd, _⟩
        simp at hd
  | .ok .sync =>
      refine ⟨?_, by intro d hd; simp at hd, fun _ => rfl⟩
      constructor
      · intro hne
        exact absurd rfl hne
      · rintro ⟨d, hd, _⟩
        simp at hd
  | .error e =>
      refine ⟨?_, by intro d hd; simp at hd, by intro h; simp at h⟩
      constructor
      · intro hne
        exact absurd rfl hne
      · rintro ⟨d, hd, _⟩
        simp at hd

/-- Witness for C5: a pixel-data message at port address 10 (channel 1, offset
0) triggers exactly one strip write, to channel 1, with the freshly updated
buffer; the Sync branch instantiated at the same state. -/
theorem strip_write_on_offset_zero_witness :
    (portAddress ⟨0, 0, 10⟩ < 40 ∧ portAddress ⟨0, 0, 10⟩ % 10 = 0) ∧
    (handleArt ⟨[169, 254, 3, 10], [0, 0, 0, 0, 0, 10]⟩ initState
        (Except.ok (Art.dmx ⟨⟨0, 0, 10⟩, 0, [10, 20, 30]⟩))
        ⟨[192, 0, 2, 9], 6454⟩ true).2.filter isStripWrite =
      [Event.stripWrite (portAddress ⟨0, 0, 10⟩ / 10)
        (bufferOf (handleArt ⟨[169, 254, 3, 10], [0, 0, 0, 0, 0, 10]⟩ initState
          (Except.ok (Art.dmx ⟨⟨0, 0, 10⟩, 0, [10, 20, 30]⟩))
          ⟨[192, 0, 2, 9], 6454⟩ true).1 (portAddress ⟨0, 0, 10⟩ / 10))] :=
  ⟨⟨by decide, by decide⟩,
    (strip_write_on_offset_zero ⟨[169, 254, 3, 10], [0, 0, 0, 0, 0, 10]⟩ initState
        (Except.ok (Art.dmx ⟨⟨0, 0, 10⟩, 0, [10, 20, 30]⟩))
        ⟨[192, 0, 2, 9], 6454⟩ true).2.1
      ⟨⟨0, 0, 10⟩, 0, [10, 20, 30]⟩ rfl (by decide) (by decide)⟩

/-- **C6**: receiving a DiscoveryPoll from source `src` produces exactly one
poll-reply send event, addressed to `src`, containing the node's configured IP
address, the Art-Net listening port, and its 6-byte hardware (MAC) address;
this holds for both send outcomes (`ok` true or false) with the state unchanged
— a failed send is only logged, never retried, and the loop continues. -/
theorem poll_reply_exactly_one (cfg : NodeConfig) (st : NodeState) (src : Endpoint)
    (ok : Bool) (hmac : cfg.hardware_address_uints.length = 6) :
    (handleArt cfg st (Except.ok Art.poll) src ok).1 = st ∧
    (handleArt cfg st (Except.ok Art.poll) src ok).2.filter isPollReply =
      [Event.pollReply src
        { ip_address := cfg.address_uints
          port := ARTNET_PORT
          mac_address := cfg.hardware_address_uints }] := by
  refine ⟨rfl, ?_⟩
  show List.filter isPollReply
      [Event.log "received artnet: poll", Event.pollReply src (mkPollReply cfg),
        if ok then Event.log "sent poll reply"
        else Event.log "error sending poll reply"] = _
  simp only [mkPollReply]
  rw [writeZip_replicate _ _ hmac]
  cases ok <;> rfl

/-- Witness for C6 with the node's own configuration (IP 169.254.3.10, MAC
00:00:00:00:00:0a), a failing send: still exactly one reply, to the source. -/
theorem poll_reply_exactly_one_witness :
    (⟨[169, 254, 3, 10], [0, 0, 0, 0, 0, 10]⟩ : NodeConfig).hardware_address_uints.length
        = 6 ∧
    ((handleArt ⟨[169, 254, 3, 10], [0, 0, 0, 0, 0, 10]⟩ initState (Except.ok Art.poll)
        ⟨[192, 0, 2, 9], 6454⟩ false).1 = initState ∧
      (handleArt ⟨[169, 254, 3, 10], [0, 0, 0, 0, 0, 10]⟩ initState (Except.ok Art.poll)
        ⟨[192, 0, 2, 9], 6454⟩ false).2.filter isPollReply =
        [Event.pollReply ⟨[192, 0, 2, 9], 6454⟩
          { ip_address := [169, 254, 3, 10]
            port := ARTNET_PORT
            mac_address := [0, 0, 0, 0, 0, 10] }]) :=
  ⟨by decide,
    poll_reply_exactly_one ⟨[169, 254, 3, 10], [0, 0, 0, 0, 0, 10]⟩ initState
      ⟨[192, 0, 2, 9], 6454⟩ false (by decide)⟩

/-- **C8**: `Poofer::poof` is edge-triggered: `poof v` with `on == v` leaves the
poofer unchanged (so no command can result from the call), while `poof v` with
`on != v` sets `on := v` and marks the poofer; the next `PooferBusPort::output`
then emits exactly one serial command — the Lean rendering of
`format!("!\x7bboard:02\x7d\x7brelay\x7d\x7bon_digit\x7d.")` — and clears the
mark, and repeating the now-identical state never resends. -/
theorem poof_edge_triggered (p : Poofer) (v : Bool) :
    (p.«on» = v → p.poof v = p) ∧
    (p.«on» ≠ v →
      ((p.poof v).«on» = v ∧ (p.poof v).needs_to_send_command = true) ∧
      pooferBusStep (p.poof v) =
        ([pooferCommand p.relay_address.board_address p.relay_address.relay_number
            (boolToU8 v)],
          { p with «on» := v, needs_to_send_command := false }) ∧
      (pooferBusStep (p.poof v)).2.poof v = (pooferBusStep (p.poof v)).2 ∧
      pooferBusStep ((pooferBusStep (p.poof v)).2.poof v) =
        ([], (pooferBusStep (p.poof v)).2) ∧
      (∀ e : Elder, e.poofer_wide = p.poof v →
        e.poofer_narrow.needs_to_send_command = false →
        (PooferBusPort.output [e]).1 =
          [pooferCommand p.relay_address.board_address p.relay_address.relay_number
            (boolToU8 v)])) := by
  constructor
  · intro h
    obtain ⟨ra, pon, pneed⟩ := p
    subst h
    cases pon <;> rfl
  · intro hne
    obtain ⟨ra, pon, pneed⟩ := p
    have hv : pon = !v := by
      cases pon <;> cases v <;> simp_all
    subst hv
    refine ⟨?_, ?_, ?_, ?_, ?_⟩
    · cases v <;> simp [Poofer.poof]
    · cases v <;> simp [Poofer.poof, pooferBusStep]
    · cases v <;> simp [Poofer.poof, pooferBusStep]
    · cases v <;> simp [Poofer.poof, pooferBusStep]
    · rintro ⟨w, nw⟩ h1 h2
      simp only at h1
      subst h1
      have h2n : nw.needs_to_send_command = false := h2
      cases v <;>
        simp [PooferBusPort.output, pooferBusStep, Poofer.poof, h2n]

/-- Witness for C8: a poofer at board 1, relay 3, off and unmarked; `poof true`
marks it and the next output emits exactly the ASCII command `"!0131."`. -/
theorem poof_edge_triggered_witness :
    ((⟨⟨1, 3⟩, false, false⟩ : Poofer).«on» ≠ true) ∧
    pooferBusStep (Poofer.poof ⟨⟨1, 3⟩, false, false⟩ true) =
      ([pooferCommand 1 3 (boolToU8 true)], ⟨⟨1, 3⟩, true, false⟩) ∧
    pooferCommand 1 3 (boolToU8 true) = "!0131." :=
  ⟨by decide,
    ((poof_edge_triggered ⟨⟨1, 3⟩, false, false⟩ true).2 (by decide)).2.1,
    by decide⟩

lemma lowBytesZero_foldl (cfg : NodeConfig)
    (l : List (Except Unit Art × Endpoint × Bool)) (st : NodeState)
    (h0 : lowBytesZero st.pixels_0 = true) (h1 : lowBytesZero st.pixels_1 = true)
    (h2 : lowBytesZero st.pixels_2 = true) (h3 : lowBytesZero st.pixels_3 = true) :
    lowBytesZero (l.foldl (fun st i => (handleArt cfg st i.1 i.2.1 i.2.2).1) st).pixels_0
        = true ∧
    lowBytesZero (l.foldl (fun st i => (handleArt cfg st i.1 i.2.1 i.2.2).1) st).pixels_1
        = true ∧
    lowBytesZero (l.foldl (fun st i => (handleArt cfg st i.1 i.2.1 i.2.2).1) st).pixels_2
        = true ∧
    lowBytesZero (l.foldl (fun st i => (handleArt cfg st i.1 i.2.1 i.2.2).1) st).pixels_3
        = true := by
  induction l generalizing st with
  | nil => exact ⟨h0, h1, h2, h3⟩
  | cons x xs ih =>
      simp only [List.foldl_cons]
      obtain ⟨g0, g1, g2, g3⟩ := lowBytesZero_handleArt cfg st x.1 x.2.1 x.2.2 h0 h1 h2 h3
      exact ih _ g0 g1 g2 g3

/-- **C10**: every word the receive loop stores in a pixel buffer is packed as
`(b0 << 24) | (b1 << 16) | (b2 << 8)` and so has its low 8 bits zero; starting
from the all-zero initial buffers, every state reachable by processing any
sequence of datagrams has all buffer words with low byte zero. -/
theorem buffer_words_low_byte_zero (cfg : NodeConfig)
    (inputs : List (Except Unit Art × Endpoint × Bool)) :
    (∀ t : Nat × Nat × Nat, packPixel t % 256 = 0) ∧
    lowBytesZero (runArtnet cfg inputs).pixels_0 = true ∧
    lowBytesZero (runArtnet cfg inputs).pixels_1 = true ∧
    lowBytesZero (runArtnet cfg inputs).pixels_2 = true ∧
    lowBytesZero (runArtnet cfg inputs).pixels_3 = true := by
  have hinit : lowBytesZero (List.replicate PIXEL_COUNT 0) = true := by
    simp [lowBytesZero, List.all_eq_true, List.mem_replicate]
  exact ⟨packPixel_mod_256,
    lowBytesZero_foldl cfg inputs initState hinit hinit hinit hinit⟩

end Haven
